import Mathlib

/-!
Shallow embedding of the coordinate index engine and kernel in/out map cache of
src/src/main.hpp (MinkowskiEngine).  The header declares the hash routine
hash_vec, the CoordIndexMap and Metadata containers, and the textual macros
INITIALIZE_DEFAULT_VARS_AND_HASHES, INITIALIZE_OUT_COORDS_AND_KERNEL_MAP,
INITIALIZE_DEFAULT_GLOBAL_VARS_AND_HASHES,
INITIALIZE_GLOBAL_OUT_COORDS_AND_KERNEL_MAP, BACKWARD_PROP_CHECK and ASSERT_EQ
that every operator entry point expands.  The bodies of the extern builder
routines (ComputeOutPixelDist, CreateOutputCoordIndexMap, CreateInOutPerKernel,
CreateInOutPerKernelTranspose, CreateOutputOriginCoordIndexMap,
CreateGlobalReductionInOutMap) are not part of the header, so they enter the
model as parameters of a `Builders` bundle; the theorems below hold for every
choice of those routines.  Machine integers are modelled as Nat with explicit
reduction modulo 2 to the 64 where uint64_t arithmetic wraps, and signed Itype
values as Int, reinterpreted as unsigned where the source converts them.
-/

namespace MinkowskiEngine

/-- The modulus of uint64_t arithmetic. -/
def U64 : Nat := 2 ^ 64

/-- Reinterpretation of a signed integer value as uint64_t (the implicit
conversion applied when an Itype element is bound to the uint64_t loop
variable of hash_vec). -/
def toU64 (x : Int) : Nat := (x % (2 ^ 64 : Int)).toNat

/-- The offset basis constant of hash_vec in main.hpp. -/
def fnvBasis : Nat := 14695981039346656037

/-- The multiplier constant of hash_vec in main.hpp. -/
def fnvPrime : Nat := 1099511628211

/-- One iteration of the loop body of hash_vec: hash is multiplied by the
prime in uint64_t arithmetic and then xored with the element. -/
def hashStep (h x : Nat) : Nat := ((h * fnvPrime) % U64) ^^^ (x % U64)

/-- hash_vec from main.hpp: the fold of `hashStep` over the elements of the
tuple, started at the offset basis.  Elements are already uint64_t values. -/
def hash_vec (p : List Nat) : Nat := p.foldl hashStep fnvBasis

/-- ArrHash from main.hpp: hash_vec applied to a length-D Itype tuple, each
component reinterpreted as unsigned. -/
def ArrHash (p : List Int) : Nat := hash_vec (p.map toU64)

/-- CoordHash from main.hpp: hash_vec applied to a length D+1 coordinate,
each component reinterpreted as unsigned. -/
def CoordHash (p : List Int) : Nat := hash_vec (p.map toU64)

/-- InOutKeyHash from main.hpp: hash_vec applied to the five uint64_t
components of an InOutKey. -/
def InOutKeyHash (p : List Nat) : Nat := hash_vec p

/-- InOutKey from main.hpp: a std array of five uint64_t values,
(pixel dist hash, stride hash, kernel size hash, dilation hash, transpose
flag converted to an integer). -/
abbrev InOutKey := List Nat

/-- Conversion of the IS_TRANSPOSE bool to the uint64_t slot of InOutKey. -/
def boolToU64 (b : Bool) : Nat := if b then 1 else 0

/-- The key built by INITIALIZE_DEFAULT_VARS_AND_HASHES: the four tuple
hashes together with the transpose flag. -/
def derivedKey (pixel_dists strides kernel_size dilations : List Int)
    (is_transpose : Bool) : InOutKey :=
  [ArrHash pixel_dists, ArrHash strides, ArrHash kernel_size,
   ArrHash dilations, boolToU64 is_transpose]

/-- Lookup in an association list; the analogue of find on the std map
containers of Metadata. -/
def lookupKV {α β : Type} [DecidableEq α] : List (α × β) → α → Option β
  | [], _ => none
  | (k, v) :: rest, k0 => if k = k0 then some v else lookupKV rest k0

/-- Insert or assign in an association list; the analogue of assignment
through the index operator on the std map containers of Metadata. -/
def insertKV {α β : Type} [DecidableEq α] : List (α × β) → α → β → List (α × β)
  | [], k0, v0 => [(k0, v0)]
  | (k, v) :: rest, k0, v0 =>
    if k = k0 then (k0, v0) :: rest else (k, v) :: insertKV rest k0 v0

/-- CoordIndexMap from main.hpp: a google dense hash map from a D+1 component
coordinate to a row index, modelled as the reserved empty key set by the
constructor together with the association list of genuinely stored entries. -/
structure CoordIndexMap (D : Nat) where
  emptyKey : List Int
  entries : List (List Int × Nat)
deriving DecidableEq

instance {D : Nat} : Inhabited (CoordIndexMap D) := ⟨⟨[], []⟩⟩

/-- The CoordIndexMap constructor from main.hpp: every one of the D+1
components of the reserved empty key is set to the negation of the
numeric_limits max value of Itype (`itypeMax`), and no entry is stored yet. -/
def CoordIndexMap.init (D : Nat) (itypeMax : Int) : CoordIndexMap D :=
  ⟨List.replicate (D + 1) (-itypeMax), []⟩

/-- size() of CoordIndexMap from main.hpp. -/
def CoordIndexMap.size {D : Nat} (m : CoordIndexMap D) : Nat := m.entries.length

/-- Modelled from the spec: single coordinate insertion (the bodies of the
coordinate registration routines such as t_initialize_coords are not under
src).  Per spec section 4.2 insertion is idempotent and assigns the next
sequential index to a new coordinate, and per sections 3 and 9 the reserved
empty key of the dense hash map is never stored as a real key. -/
def CoordIndexMap.insert {D : Nat} (m : CoordIndexMap D) (c : List Int) :
    CoordIndexMap D :=
  if c = m.emptyKey then m
  else if (lookupKV m.entries c).isSome then m
  else ⟨m.emptyKey, m.entries ++ [(c, m.entries.length)]⟩

/-- Folded insertion of a batch of coordinates. -/
def CoordIndexMap.insertAll {D : Nat} (m : CoordIndexMap D)
    (cs : List (List Int)) : CoordIndexMap D :=
  cs.foldl CoordIndexMap.insert m

/-- InOutMapPerKernel from main.hpp: one list of row indices per kernel
offset. -/
abbrev InOutMapPerKernel := List (List Int)

/-- Metadata from main.hpp: the per-scope cache holding the coordinate maps
keyed by resolution hash and the two parallel in/out maps keyed by InOutKey.
The cuBLAS and cuSPARSE handles held by the C++ class are outside the mapping
logic and are not modelled. -/
structure Metadata (D : Nat) where
  coord2inds : List (Nat × CoordIndexMap D)
  in_maps : List (InOutKey × InOutMapPerKernel)
  out_maps : List (InOutKey × InOutMapPerKernel)
deriving DecidableEq

/-- A freshly constructed Metadata: all three maps empty. -/
def Metadata.empty (D : Nat) : Metadata D := ⟨[], [], []⟩

/-- Metadata clear() from main.hpp: coord2inds, in_maps and out_maps are all
cleared. -/
def Metadata.clear {D : Nat} (_m : Metadata D) : Metadata D := ⟨[], [], []⟩

/-- The extern builder routines consumed by the cache population macros.
Their bodies are not under src, so they are parameters of the model; every
theorem below is proved for every choice of them.  The argument lists follow
the call sites in main.hpp. -/
structure Builders (D : Nat) where
  computeOutPixelDist : List Int → List Int → Bool → List Int
  createOutputCoordIndexMap :
    CoordIndexMap D → List Int → List Int → CoordIndexMap D
  createInOutPerKernel :
    CoordIndexMap D → CoordIndexMap D → List Int → List Int → List Int →
    Int → List (List Int) → InOutMapPerKernel × InOutMapPerKernel
  createInOutPerKernelTranspose :
    CoordIndexMap D → CoordIndexMap D → List Int → List Int → List Int →
    Int → List (List Int) → InOutMapPerKernel × InOutMapPerKernel
  createOutputOriginCoordIndexMap : CoordIndexMap D → Int → CoordIndexMap D
  createGlobalReductionInOutMap :
    CoordIndexMap D → CoordIndexMap D → InOutMapPerKernel × InOutMapPerKernel

/-- Outcome of expanding one of the cache population macros inside an entry
point: `err` is the early return value (some (-1)) when the macro bails out
and none when it falls through, `meta` is the metadata state afterwards, and
`ranBuilder` records whether a kernel map builder routine was invoked. -/
structure StepResult (D : Nat) where
  err : Option Int
  meta : Metadata D
  ranBuilder : Bool
deriving DecidableEq

/-- INITIALIZE_DEFAULT_VARS_AND_HASHES followed by
INITIALIZE_OUT_COORDS_AND_KERNEL_MAP from main.hpp, the shared body of the
forward convolution and pooling entry points.  The getD default reads model
the index operator of std map at keys whose presence the preceding checks
guarantee. -/
def initOutCoordsAndKernelMap {D : Nat} (B : Builders D) (is_transpose : Bool)
    (p_pixel_dist p_stride p_kernel_size p_dilation : List Int)
    (region_type : Int) (offsets : List (List Int)) (m : Metadata D) :
    StepResult D :=
  let pixel_dist_hash := ArrHash p_pixel_dist
  let out_pixel_dists := B.computeOutPixelDist p_pixel_dist p_stride is_transpose
  let out_pixel_dist_hash := ArrHash out_pixel_dists
  let key := derivedKey p_pixel_dist p_stride p_kernel_size p_dilation is_transpose
  if lookupKV m.coord2inds pixel_dist_hash = none then ⟨some (-1), m, false⟩
  else if is_transpose then
    if lookupKV m.coord2inds out_pixel_dist_hash = none then ⟨some (-1), m, false⟩
    else if lookupKV m.in_maps key = none then
      let t := B.createInOutPerKernelTranspose
        ((lookupKV m.coord2inds pixel_dist_hash).getD default)
        ((lookupKV m.coord2inds out_pixel_dist_hash).getD default)
        out_pixel_dists p_kernel_size p_dilation region_type offsets
      ⟨none, ⟨m.coord2inds, insertKV m.in_maps key t.1,
              insertKV m.out_maps key t.2⟩, true⟩
    else ⟨none, m, false⟩
  else
    let m1 : Metadata D :=
      if lookupKV m.coord2inds out_pixel_dist_hash = none then
        ⟨insertKV m.coord2inds out_pixel_dist_hash
          (B.createOutputCoordIndexMap
            ((lookupKV m.coord2inds pixel_dist_hash).getD default)
            p_pixel_dist p_stride),
         m.in_maps, m.out_maps⟩
      else m
    if lookupKV m1.in_maps key = none then
      let t := B.createInOutPerKernel
        ((lookupKV m1.coord2inds pixel_dist_hash).getD default)
        ((lookupKV m1.coord2inds out_pixel_dist_hash).getD default)
        p_pixel_dist p_kernel_size p_dilation region_type offsets
      ⟨none, ⟨m1.coord2inds, insertKV m1.in_maps key t.1,
              insertKV m1.out_maps key t.2⟩, true⟩
    else ⟨none, m1, false⟩

/-- INITIALIZE_DEFAULT_GLOBAL_VARS_AND_HASHES followed by
INITIALIZE_GLOBAL_OUT_COORDS_AND_KERNEL_MAP from main.hpp, the shared body of
the global pooling and broadcast entry points.  The out pixel dists and the
stride, kernel size and dilation tuples are value initialized std arrays,
that is all zero tuples of length D. -/
def initGlobalOutCoordsAndKernelMap {D : Nat} (B : Builders D)
    (p_pixel_dist : List Int) (m : Metadata D) : StepResult D :=
  let pixel_dist_hash := ArrHash p_pixel_dist
  let out_pixel_dist_hash := ArrHash (List.replicate D (0 : Int))
  let key := derivedKey p_pixel_dist (List.replicate D 0) (List.replicate D 0)
    (List.replicate D 0) false
  if lookupKV m.coord2inds pixel_dist_hash = none then ⟨some (-1), m, false⟩
  else
    let m1 : Metadata D :=
      if lookupKV m.coord2inds out_pixel_dist_hash = none then
        ⟨insertKV m.coord2inds out_pixel_dist_hash
          (B.createOutputOriginCoordIndexMap
            ((lookupKV m.coord2inds pixel_dist_hash).getD default) 0),
         m.in_maps, m.out_maps⟩
      else m
    if lookupKV m1.in_maps key = none then
      let t := B.createGlobalReductionInOutMap
        ((lookupKV m1.coord2inds pixel_dist_hash).getD default)
        ((lookupKV m1.coord2inds out_pixel_dist_hash).getD default)
      ⟨none, ⟨m1.coord2inds, insertKV m1.in_maps key t.1,
              insertKV m1.out_maps key t.2⟩, true⟩
    else ⟨none, m1, false⟩

/-- INITIALIZE_DEFAULT_VARS_AND_HASHES followed by BACKWARD_PROP_CHECK from
main.hpp, the shared body of the backward entry points: three existence
checks, each bailing out with -1, and no mutation of any map. -/
def backwardPropCheck {D : Nat} (B : Builders D) (is_transpose : Bool)
    (p_pixel_dist p_stride p_kernel_size p_dilation : List Int)
    (m : Metadata D) : StepResult D :=
  let pixel_dist_hash := ArrHash p_pixel_dist
  let out_pixel_dist_hash :=
    ArrHash (B.computeOutPixelDist p_pixel_dist p_stride is_transpose)
  let key := derivedKey p_pixel_dist p_stride p_kernel_size p_dilation is_transpose
  if lookupKV m.coord2inds pixel_dist_hash = none then ⟨some (-1), m, false⟩
  else if lookupKV m.coord2inds out_pixel_dist_hash = none then ⟨some (-1), m, false⟩
  else if lookupKV m.in_maps key = none then ⟨some (-1), m, false⟩
  else ⟨none, m, false⟩

/-- ASSERT_EQ from main.hpp: on mismatch the entry point returns -1, on
equality it falls through. -/
def ASSERT_EQ (a b : Int) : Option Int := if a ≠ b then some (-1) else none

/-- Modelled from the spec: a coordinate registration entry point such as
t_initialize_coords (bodies not under src) stores a CoordIndexMap for the
given resolution hash in coord2inds and touches neither in_maps nor
out_maps (spec sections 2 and 6). -/
def registerCoords {D : Nat} (h : Nat) (cm : CoordIndexMap D)
    (m : Metadata D) : StepResult D :=
  ⟨none, ⟨insertKV m.coord2inds h cm, m.in_maps, m.out_maps⟩, false⟩

/-- Modelled from the spec: t_get_num_coords is declared in main.hpp but its
body is not under src.  Per spec sections 4.2 and 8, querying the row count
of a resolution that was never registered is a signaled error reported as -1;
otherwise the size of that resolution's CoordIndexMap is returned. -/
def t_get_num_coords {D : Nat} (p_pixel_dist : List Int) (m : Metadata D) :
    Except Int Nat :=
  match lookupKV m.coord2inds (ArrHash p_pixel_dist) with
  | none => Except.error (-1)
  | some cm => Except.ok cm.size

/-- One entry point call in a call sequence against a scope.  The
constructors carry the builder bundle and the raw geometry arguments of the
corresponding entry point. -/
inductive Op (D : Nat) where
  | convLike (B : Builders D) (tr : Bool) (pd s ks dl : List Int)
      (rt : Int) (off : List (List Int))
  | globalReduce (B : Builders D) (pd : List Int)
  | backwardCheck (B : Builders D) (tr : Bool) (pd s ks dl : List Int)
  | registerRes (h : Nat) (cm : CoordIndexMap D)
  | clearScope

/-- The metadata state after one entry point call, whether it failed or
succeeded. -/
def runOp {D : Nat} (m : Metadata D) : Op D → Metadata D
  | .convLike B tr pd s ks dl rt off =>
      (initOutCoordsAndKernelMap B tr pd s ks dl rt off m).meta
  | .globalReduce B pd => (initGlobalOutCoordsAndKernelMap B pd m).meta
  | .backwardCheck B tr pd s ks dl => (backwardPropCheck B tr pd s ks dl m).meta
  | .registerRes h cm => (registerCoords h cm m).meta
  | .clearScope => Metadata.clear m

/-- The metadata state after a sequence of entry point calls. -/
def runOps {D : Nat} (m : Metadata D) (ops : List (Op D)) : Metadata D :=
  ops.foldl runOp m

/-- The pairing invariant of the two parallel in/out caches: a geometry key
is present in in_maps exactly when it is present in out_maps. -/
def keysPaired {D : Nat} (m : Metadata D) : Prop :=
  ∀ k : InOutKey, (lookupKV m.in_maps k).isSome ↔ (lookupKV m.out_maps k).isSome

/-- The hash recurrence exactly as the specification words it: h0 is the
offset basis and each step multiplies by the odd prime modulo 2 to the 64 and
xors the component reinterpreted as unsigned.  Written independently of
`hash_vec` so the two can be compared. -/
def hashSpecFold : Nat → List Nat → Nat
  | h, [] => h
  | h, x :: xs => hashSpecFold (((h * 1099511628211) % 2 ^ 64) ^^^ (x % 2 ^ 64)) xs

/-- numeric_limits max of int32_t, the Itype used by the library bindings. -/
def int32Max : Int := 2147483647

/-- A concrete coordinate map used by the witnesses (D = 1, so coordinates
have two components). -/
def demoCoordMap : CoordIndexMap 1 :=
  ⟨[-2147483647, -2147483647], [([0, 0], 0), ([2, 0], 1)]⟩

/-- A concrete builder bundle used by the witnesses. -/
def demoBuilders : Builders 1 where
  computeOutPixelDist := fun pd _ _ => pd.map (fun x => 2 * x)
  createOutputCoordIndexMap := fun cm _ _ => cm
  createInOutPerKernel := fun _ _ _ _ _ _ _ => ([[0]], [[0]])
  createInOutPerKernelTranspose := fun _ _ _ _ _ _ _ => ([[1]], [[1]])
  createOutputOriginCoordIndexMap := fun cm _ => cm
  createGlobalReductionInOutMap := fun _ _ => ([[2]], [[2]])

/-- A concrete scope with one registered resolution and empty in/out caches. -/
def demoMeta : Metadata 1 := ⟨[(ArrHash [1], demoCoordMap)], [], []⟩

/-- A concrete scope with two registered resolutions and empty in/out
caches. -/
def demoMeta2 : Metadata 1 :=
  ⟨[(ArrHash [1], demoCoordMap), (ArrHash [2], demoCoordMap)], [], []⟩

/-- The scope obtained from demoMeta by one successful non transposed run
with pixel dist [1], stride [2], kernel size [3], dilation [1]. -/
def demoM1 : Metadata 1 :=
  ⟨[(ArrHash [1], demoCoordMap), (ArrHash [2], demoCoordMap)],
   [(derivedKey [1] [2] [3] [1] false, [[0]])],
   [(derivedKey [1] [2] [3] [1] false, [[0]])]⟩

/-- Lookup after insert or assign: the inserted key yields the new value and
every other key is unaffected. -/
theorem lookupKV_insertKV {α β : Type} [DecidableEq α] (l : List (α × β))
    (k0 k1 : α) (v0 : β) :
    lookupKV (insertKV l k0 v0) k1 =
      if k0 = k1 then some v0 else lookupKV l k1 := by
  induction l with
  | nil => simp [insertKV, lookupKV]
  | cons hd tl ih =>
    obtain ⟨k, v⟩ := hd
    by_cases hk : k = k0 <;> by_cases h1 : k0 = k1 <;>
      simp_all [insertKV, lookupKV]

/-- A forward or transposed operator whose input resolution has no registered
coordinate map bails out with -1 and leaves the scope untouched. -/
theorem initOut_missing_pd {D : Nat} (B : Builders D) (tr : Bool)
    (pd s ks dl : List Int) (rt : Int) (off : List (List Int)) (m : Metadata D)
    (h : lookupKV m.coord2inds (ArrHash pd) = none) :
    initOutCoordsAndKernelMap B tr pd s ks dl rt off m = ⟨some (-1), m, false⟩ := by
  simp [initOutCoordsAndKernelMap, h]

/-- When the input coordinate map, the output coordinate map and the cached
in/out map are all present, the macro falls through without building or
mutating anything. -/
theorem initOut_all_present {D : Nat} (B : Builders D) (tr : Bool)
    (pd s ks dl : List Int) (rt : Int) (off : List (List Int)) (m : Metadata D)
    (h1 : lookupKV m.coord2inds (ArrHash pd) ≠ none)
    (h2 : lookupKV m.coord2inds (ArrHash (B.computeOutPixelDist pd s tr)) ≠ none)
    (h3 : lookupKV m.in_maps (derivedKey pd s ks dl tr) ≠ none) :
    initOutCoordsAndKernelMap B tr pd s ks dl rt off m = ⟨none, m, false⟩ := by
  cases tr with
  | false => simp [initOutCoordsAndKernelMap, h1, h2, h3]
  | true => simp [initOutCoordsAndKernelMap, h1, h2, h3]

/-- When the geometry key is already cached, no builder runs and the two
in/out caches are left unchanged; a non transposed call with a registered
input resolution moreover falls through successfully. -/
theorem initOut_key_present {D : Nat} (B : Builders D) (tr : Bool)
    (pd s ks dl : List Int) (rt : Int) (off : List (List Int)) (m : Metadata D)
    (hk : lookupKV m.in_maps (derivedKey pd s ks dl tr) ≠ none) :
    (initOutCoordsAndKernelMap B tr pd s ks dl rt off m).ranBuilder = false ∧
    (initOutCoordsAndKernelMap B tr pd s ks dl rt off m).meta.in_maps = m.in_maps ∧
    (initOutCoordsAndKernelMap B tr pd s ks dl rt off m).meta.out_maps = m.out_maps ∧
    (lookupKV m.coord2inds (ArrHash pd) ≠ none → tr = false →
      (initOutCoordsAndKernelMap B tr pd s ks dl rt off m).err = none) := by
  cases tr with
  | false =>
    by_cases h1 : lookupKV m.coord2inds (ArrHash pd) = none
    · simp [initOutCoordsAndKernelMap, h1]
    · by_cases h2 : lookupKV m.coord2inds
          (ArrHash (B.computeOutPixelDist pd s false)) = none
      · simp [initOutCoordsAndKernelMap, h1, h2, hk]
      · simp [initOutCoordsAndKernelMap, h1, h2, hk]
  | true =>
    by_cases h1 : lookupKV m.coord2inds (ArrHash pd) = none
    · simp [initOutCoordsAndKernelMap, h1]
    · by_cases h2 : lookupKV m.coord2inds
          (ArrHash (B.computeOutPixelDist pd s true)) = none
      · simp [initOutCoordsAndKernelMap, h1, h2]
      · simp [initOutCoordsAndKernelMap, h1, h2, hk]

/-- After a successful run of the macro on a scope whose two in/out caches
hold the same keys, the input and output coordinate maps and both cached
in/out maps for the derived key are present; a transposed run never changes
coord2inds. -/
theorem initOut_success {D : Nat} (B : Builders D) (tr : Bool)
    (pd s ks dl : List Int) (rt : Int) (off : List (List Int))
    (m m1 : Metadata D) (b1 : Bool) (hp : keysPaired m)
    (h : initOutCoordsAndKernelMap B tr pd s ks dl rt off m = ⟨none, m1, b1⟩) :
    lookupKV m1.coord2inds (ArrHash pd) ≠ none ∧
    lookupKV m1.coord2inds (ArrHash (B.computeOutPixelDist pd s tr)) ≠ none ∧
    lookupKV m1.in_maps (derivedKey pd s ks dl tr) ≠ none ∧
    lookupKV m1.out_maps (derivedKey pd s ks dl tr) ≠ none ∧
    (tr = true → m1.coord2inds = m.coord2inds) := by
  cases tr with
  | true =>
    by_cases h1 : lookupKV m.coord2inds (ArrHash pd) = none
    · simp [initOutCoordsAndKernelMap, h1] at h
    · by_cases h2 : lookupKV m.coord2inds
          (ArrHash (B.computeOutPixelDist pd s true)) = none
      · simp [initOutCoordsAndKernelMap, h1, h2] at h
      · by_cases h3 : lookupKV m.in_maps (derivedKey pd s ks dl true) = none
        · simp [initOutCoordsAndKernelMap, h1, h2, h3] at h
          obtain ⟨hm, -⟩ := h
          subst hm
          simp_all [lookupKV_insertKV]
        · have hout : lookupKV m.out_maps (derivedKey pd s ks dl true) ≠ none := by
            have := (hp (derivedKey pd s ks dl true)).mp
              (Option.isSome_iff_ne_none.mpr h3)
            exact Option.isSome_iff_ne_none.mp this
          simp [initOutCoordsAndKernelMap, h1, h2, h3] at h
          obtain ⟨hm, -⟩ := h
          subst hm
          simp_all
  | false =>
    by_cases h1 : lookupKV m.coord2inds (ArrHash pd) = none
    · simp [initOutCoordsAndKernelMap, h1] at h
    · by_cases h2 : lookupKV m.coord2inds
          (ArrHash (B.computeOutPixelDist pd s false)) = none
      · have hne : ArrHash (B.computeOutPixelDist pd s false) ≠ ArrHash pd :=
          fun he => h1 (he ▸ h2)
        by_cases h3 : lookupKV m.in_maps (derivedKey pd s ks dl false) = none
        · simp [initOutCoordsAndKernelMap, h1, h2, h3] at h
          obtain ⟨hm, -⟩ := h
          subst hm
          simp_all [lookupKV_insertKV, hne]
        · have hout : lookupKV m.out_maps (derivedKey pd s ks dl false) ≠ none := by
            have := (hp (derivedKey pd s ks dl false)).mp
              (Option.isSome_iff_ne_none.mpr h3)
            exact Option.isSome_iff_ne_none.mp this
          simp [initOutCoordsAndKernelMap, h1, h2, h3] at h
          obtain ⟨hm, -⟩ := h
          subst hm
          simp_all [lookupKV_insertKV, hne]
      · by_cases h3 : lookupKV m.in_maps (derivedKey pd s ks dl false) = none
        · simp [initOutCoordsAndKernelMap, h1, h2, h3] at h
          obtain ⟨hm, -⟩ := h
          subst hm
          simp_all [lookupKV_insertKV]
        · have hout : lookupKV m.out_maps (derivedKey pd s ks dl false) ≠ none := by
            have := (hp (derivedKey pd s ks dl false)).mp
              (Option.isSome_iff_ne_none.mpr h3)
            exact Option.isSome_iff_ne_none.mp this
          simp [initOutCoordsAndKernelMap, h1, h2, h3] at h
          obtain ⟨hm, -⟩ := h
          subst hm
          simp_all

/-- Every early return of the forward macro carries the value -1 and leaves
the scope exactly as it was. -/
theorem initOut_err {D : Nat} (B : Builders D) (tr : Bool)
    (pd s ks dl : List Int) (rt : Int) (off : List (List Int)) (m : Metadata D)
    (h : (initOutCoordsAndKernelMap B tr pd s ks dl rt off m).err ≠ none) :
    initOutCoordsAndKernelMap B tr pd s ks dl rt off m = ⟨some (-1), m, false⟩ := by
  cases tr with
  | false =>
    by_cases h1 : lookupKV m.coord2inds (ArrHash pd) = none
    · simp [initOutCoordsAndKernelMap, h1]
    · by_cases h2 : lookupKV m.coord2inds
          (ArrHash (B.computeOutPixelDist pd s false)) = none <;>
      by_cases h3 : lookupKV m.in_maps (derivedKey pd s ks dl false) = none <;>
      simp [initOutCoordsAndKernelMap, h1, h2, h3] at h
  | true =>
    by_cases h1 : lookupKV m.coord2inds (ArrHash pd) = none
    · simp [initOutCoordsAndKernelMap, h1]
    · by_cases h2 : lookupKV m.coord2inds
          (ArrHash (B.computeOutPixelDist pd s true)) = none
      · simp [initOutCoordsAndKernelMap, h1, h2]
      · by_cases h3 : lookupKV m.in_maps (derivedKey pd s ks dl true) = none <;>
        simp [initOutCoordsAndKernelMap, h1, h2, h3] at h

/-- Every early return of the global macro carries the value -1 and leaves
the scope exactly as it was. -/
theorem initGlobal_err {D : Nat} (B : Builders D) (pd : List Int)
    (m : Metadata D)
    (h : (initGlobalOutCoordsAndKernelMap B pd m).err ≠ none) :
    initGlobalOutCoordsAndKernelMap B pd m = ⟨some (-1), m, false⟩ := by
  by_cases h1 : lookupKV m.coord2inds (ArrHash pd) = none
  · simp [initGlobalOutCoordsAndKernelMap, h1]
  · by_cases h2 : lookupKV m.coord2inds
        (ArrHash (List.replicate D (0 : Int))) = none <;>
    by_cases h3 : lookupKV m.in_maps (derivedKey pd (List.replicate D 0)
        (List.replicate D 0) (List.replicate D 0) false) = none <;>
    simp [initGlobalOutCoordsAndKernelMap, h1, h2, h3] at h

/-- The backward check either bails out with -1 or falls through; either way
the scope is returned exactly as it was and no builder runs. -/
theorem backward_result {D : Nat} (B : Builders D) (tr : Bool)
    (pd s ks dl : List Int) (m : Metadata D) :
    backwardPropCheck B tr pd s ks dl m = ⟨some (-1), m, false⟩ ∨
    backwardPropCheck B tr pd s ks dl m = ⟨none, m, false⟩ := by
  by_cases h1 : lookupKV m.coord2inds (ArrHash pd) = none <;>
  by_cases h2 : lookupKV m.coord2inds
      (ArrHash (B.computeOutPixelDist pd s tr)) = none <;>
  by_cases h3 : lookupKV m.in_maps (derivedKey pd s ks dl tr) = none <;>
  simp [backwardPropCheck, h1, h2, h3]

/-- The backward check fails exactly when one of its three lookups fails. -/
theorem backward_err_iff {D : Nat} (B : Builders D) (tr : Bool)
    (pd s ks dl : List Int) (m : Metadata D) :
    (backwardPropCheck B tr pd s ks dl m).err = some (-1) ↔
      (lookupKV m.coord2inds (ArrHash pd) = none ∨
       lookupKV m.coord2inds (ArrHash (B.computeOutPixelDist pd s tr)) = none ∨
       lookupKV m.in_maps (derivedKey pd s ks dl tr) = none) := by
  by_cases h1 : lookupKV m.coord2inds (ArrHash pd) = none <;>
  by_cases h2 : lookupKV m.coord2inds
      (ArrHash (B.computeOutPixelDist pd s tr)) = none <;>
  by_cases h3 : lookupKV m.in_maps (derivedKey pd s ks dl tr) = none <;>
  simp [backwardPropCheck, h1, h2, h3]

/-- Inserting the same key on both sides preserves the pairing of the two
in/out caches. -/
theorem keysPaired_insert {im om : List (InOutKey × InOutMapPerKernel)}
    (k : InOutKey) (v1 v2 : InOutMapPerKernel)
    (h : ∀ k0, (lookupKV im k0).isSome ↔ (lookupKV om k0).isSome)
    (k0 : InOutKey) :
    (lookupKV (insertKV im k v1) k0).isSome ↔
      (lookupKV (insertKV om k v2) k0).isSome := by
  by_cases hk : k = k0 <;> simp [lookupKV_insertKV, hk, h k0]

/-- The forward macro preserves the pairing invariant. -/
theorem initOut_keysPaired {D : Nat} (B : Builders D) (tr : Bool)
    (pd s ks dl : List Int) (rt : Int) (off : List (List Int)) (m : Metadata D)
    (hp : keysPaired m) :
    keysPaired (initOutCoordsAndKernelMap B tr pd s ks dl rt off m).meta := by
  cases tr with
  | false =>
    by_cases h1 : lookupKV m.coord2inds (ArrHash pd) = none
    · simpa [initOutCoordsAndKernelMap, h1] using hp
    · by_cases h2 : lookupKV m.coord2inds
          (ArrHash (B.computeOutPixelDist pd s false)) = none <;>
      by_cases h3 : lookupKV m.in_maps (derivedKey pd s ks dl false) = none
      · intro k0
        simp [initOutCoordsAndKernelMap, h1, h2, h3]
        simpa using keysPaired_insert (derivedKey pd s ks dl false) _ _ hp k0
      · intro k0
        simp [initOutCoordsAndKernelMap, h1, h2, h3]
        simpa using hp k0
      · intro k0
        simp [initOutCoordsAndKernelMap, h1, h2, h3]
        simpa using keysPaired_insert (derivedKey pd s ks dl false) _ _ hp k0
      · intro k0
        simp [initOutCoordsAndKernelMap, h1, h2, h3]
        simpa using hp k0
  | true =>
    by_cases h1 : lookupKV m.coord2inds (ArrHash pd) = none
    · simpa [initOutCoordsAndKernelMap, h1] using hp
    · by_cases h2 : lookupKV m.coord2inds
          (ArrHash (B.computeOutPixelDist pd s true)) = none
      · simpa [initOutCoordsAndKernelMap, h1, h2] using hp
      · by_cases h3 : lookupKV m.in_maps (derivedKey pd s ks dl true) = none
        · intro k0
          simp [initOutCoordsAndKernelMap, h1, h2, h3]
          simpa using keysPaired_insert (derivedKey pd s ks dl true) _ _ hp k0
        · simpa [initOutCoordsAndKernelMap, h1, h2, h3] using hp

/-- The global macro preserves the pairing invariant. -/
theorem initGlobal_keysPaired {D : Nat} (B : Builders D) (pd : List Int)
    (m : Metadata D) (hp : keysPaired m) :
    keysPaired (initGlobalOutCoordsAndKernelMap B pd m).meta := by
  by_cases h1 : lookupKV m.coord2inds (ArrHash pd) = none
  · simpa [initGlobalOutCoordsAndKernelMap, h1] using hp
  · by_cases h2 : lookupKV m.coord2inds
        (ArrHash (List.replicate D (0 : Int))) = none <;>
    by_cases h3 : lookupKV m.in_maps (derivedKey pd (List.replicate D 0)
        (List.replicate D 0) (List.replicate D 0) false) = none
    · intro k0
      simp [initGlobalOutCoordsAndKernelMap, h1, h2, h3]
      simpa using keysPaired_insert (derivedKey pd (List.replicate D 0)
        (List.replicate D 0) (List.replicate D 0) false) _ _ hp k0
    · intro k0
      simp [initGlobalOutCoordsAndKernelMap, h1, h2, h3]
      simpa using hp k0
    · intro k0
      simp [initGlobalOutCoordsAndKernelMap, h1, h2, h3]
      simpa using keysPaired_insert (derivedKey pd (List.replicate D 0)
        (List.replicate D 0) (List.replicate D 0) false) _ _ hp k0
    · intro k0
      simp [initGlobalOutCoordsAndKernelMap, h1, h2, h3]
      simpa using hp k0

/-- Every single entry point call preserves the pairing invariant. -/
theorem runOp_keysPaired {D : Nat} (m : Metadata D) (op : Op D)
    (hp : keysPaired m) : keysPaired (runOp m op) := by
  cases op with
  | convLike B tr pd s ks dl rt off => exact initOut_keysPaired B tr pd s ks dl rt off m hp
  | globalReduce B pd => exact initGlobal_keysPaired B pd m hp
  | backwardCheck B tr pd s ks dl =>
    rcases backward_result B tr pd s ks dl m with h | h <;>
      simp [runOp, h] <;> exact hp
  | registerRes h cm => exact hp
  | clearScope => intro k0; simp [runOp, Metadata.clear, lookupKV]

/-- Every sequence of entry point calls preserves the pairing invariant. -/
theorem runOps_keysPaired {D : Nat} (ops : List (Op D)) (m : Metadata D)
    (hp : keysPaired m) : keysPaired (runOps m ops) := by
  induction ops generalizing m with
  | nil => exact hp
  | cons op rest ih => exact ih (runOp m op) (runOp_keysPaired m op hp)

/-- A freshly constructed scope satisfies the pairing invariant. -/
theorem keysPaired_empty (D : Nat) : keysPaired (Metadata.empty D) :=
  fun _ => Iff.rfl

/-- The fold of the source loop body agrees with the recurrence of the
specification for every start value. -/
theorem foldl_hashStep_eq (p : List Nat) :
    ∀ h : Nat, p.foldl hashStep h = hashSpecFold h p := by
  induction p with
  | nil => intro h; rfl
  | cons x xs ih =>
    intro h
    simp only [List.foldl, hashSpecFold, hashStep, fnvPrime, U64]
    exact ih _

/-- Coordinate insertion keeps the reserved empty key and never stores it as
a real key. -/
theorem insert_sentinel {D : Nat} (m : CoordIndexMap D) (c : List Int) :
    (m.insert c).emptyKey = m.emptyKey ∧
    ((∀ e ∈ m.entries, e.1 ≠ m.emptyKey) →
      ∀ e ∈ (m.insert c).entries, e.1 ≠ m.emptyKey) := by
  by_cases h1 : c = m.emptyKey
  · simp [CoordIndexMap.insert, h1]
  · by_cases h2 : (lookupKV m.entries c).isSome
    · simp [CoordIndexMap.insert, h1, h2]
    · refine ⟨by simp [CoordIndexMap.insert, h1, h2], fun hinv e he => ?_⟩
      simp only [CoordIndexMap.insert, h1, h2, if_false, ite_false] at he
      rcases List.mem_append.mp he with he | he
      · exact hinv e he
      · have : e = (c, m.entries.length) := by simpa using he
        rw [this]
        exact h1

/-- Batch insertion keeps the reserved empty key and never stores it as a
real key. -/
theorem insertAll_sentinel {D : Nat} (cs : List (List Int))
    (m : CoordIndexMap D) (hinv : ∀ e ∈ m.entries, e.1 ≠ m.emptyKey) :
    (m.insertAll cs).emptyKey = m.emptyKey ∧
    ∀ e ∈ (m.insertAll cs).entries, e.1 ≠ m.emptyKey := by
  induction cs generalizing m with
  | nil => exact ⟨rfl, hinv⟩
  | cons c rest ih =>
    obtain ⟨hek, hent⟩ := insert_sentinel m c
    obtain ⟨hek2, hent2⟩ := ih (m.insert c) (by rw [hek]; exact hent hinv)
    refine ⟨by simpa [CoordIndexMap.insertAll] using hek2.trans hek, ?_⟩
    intro e he
    have := hent2 e (by simpa [CoordIndexMap.insertAll] using he)
    rwa [hek] at this

/-- C1: for every scope satisfying the pairing invariant of its two in/out
caches and every geometry key, after a successful mapping request a second
request without an intervening clear returns without running any kernel map
builder and with the scope unchanged, so both requests observe the same
in/out pair lists; moreover the result of the first request is present in
both caches (it was inserted before returning). -/
theorem kernel_map_cache_idempotent {D : Nat} (B : Builders D) (tr : Bool)
    (pd s ks dl : List Int) (rt : Int) (off : List (List Int))
    (m m1 : Metadata D) (b1 : Bool) (hp : keysPaired m)
    (h : initOutCoordsAndKernelMap B tr pd s ks dl rt off m = ⟨none, m1, b1⟩) :
    initOutCoordsAndKernelMap B tr pd s ks dl rt off m1 = ⟨none, m1, false⟩ ∧
    lookupKV m1.in_maps (derivedKey pd s ks dl tr) ≠ none ∧
    lookupKV m1.out_maps (derivedKey pd s ks dl tr) ≠ none := by
  obtain ⟨c1, c2, c3, c4, -⟩ := initOut_success B tr pd s ks dl rt off m m1 b1 hp h
  exact ⟨initOut_all_present B tr pd s ks dl rt off m1 c1 c2 c3, c3, c4⟩

/-- Witness for C1 at a concrete scope: the demo forward call on demoMeta
produces demoM1, and the repeated call is a pure cache hit. -/
theorem kernel_map_cache_idempotent_witness :
    initOutCoordsAndKernelMap demoBuilders false [1] [2] [3] [1] 0 [] demoM1 =
      ⟨none, demoM1, false⟩ ∧
    lookupKV demoM1.in_maps (derivedKey [1] [2] [3] [1] false) ≠ none ∧
    lookupKV demoM1.out_maps (derivedKey [1] [2] [3] [1] false) ≠ none :=
  kernel_map_cache_idempotent demoBuilders false [1] [2] [3] [1] 0 []
    demoMeta demoM1 true (fun _ => Iff.rfl) (by decide)

/-- C2: the cache lookup of an in/out map is keyed only by the five derived
fields.  After a successful call, any second call whose four tuple hashes
agree (even with structurally different tuples) runs no builder and leaves
both in/out caches exactly as the first call left them, so it reuses the
first call's cached map; a non transposed second call moreover succeeds. -/
theorem cache_identity_by_derived_key {D : Nat} (B : Builders D) (tr : Bool)
    (pd s ks dl pd2 s2 ks2 dl2 : List Int) (rt rt2 : Int)
    (off off2 : List (List Int)) (m m1 : Metadata D) (b1 : Bool)
    (hp : keysPaired m)
    (hpd : ArrHash pd2 = ArrHash pd) (hs : ArrHash s2 = ArrHash s)
    (hks : ArrHash ks2 = ArrHash ks) (hdl : ArrHash dl2 = ArrHash dl)
    (h : initOutCoordsAndKernelMap B tr pd s ks dl rt off m = ⟨none, m1, b1⟩) :
    (initOutCoordsAndKernelMap B tr pd2 s2 ks2 dl2 rt2 off2 m1).ranBuilder = false ∧
    (initOutCoordsAndKernelMap B tr pd2 s2 ks2 dl2 rt2 off2 m1).meta.in_maps = m1.in_maps ∧
    (initOutCoordsAndKernelMap B tr pd2 s2 ks2 dl2 rt2 off2 m1).meta.out_maps = m1.out_maps ∧
    (tr = false → (initOutCoordsAndKernelMap B tr pd2 s2 ks2 dl2 rt2 off2 m1).err = none) := by
  obtain ⟨c1, -, c3, -, -⟩ := initOut_success B tr pd s ks dl rt off m m1 b1 hp h
  have hkey : derivedKey pd2 s2 ks2 dl2 tr = derivedKey pd s ks dl tr := by
    simp [derivedKey, hpd, hs, hks, hdl]
  have hk2 : lookupKV m1.in_maps (derivedKey pd2 s2 ks2 dl2 tr) ≠ none := by
    rw [hkey]; exact c3
  have hc2 : lookupKV m1.coord2inds (ArrHash pd2) ≠ none := by
    rw [hpd]; exact c1
  obtain ⟨r1, r2, r3, r4⟩ :=
    initOut_key_present B tr pd2 s2 ks2 dl2 rt2 off2 m1 hk2
  exact ⟨r1, r2, r3, fun htr => r4 hc2 htr⟩

/-- Witness for C2 at a concrete scope, with the two invocations using equal
tuples (so equal derived hashes). -/
theorem cache_identity_by_derived_key_witness :
    (initOutCoordsAndKernelMap demoBuilders false [1] [2] [3] [1] 0 [] demoM1).ranBuilder = false ∧
    (initOutCoordsAndKernelMap demoBuilders false [1] [2] [3] [1] 0 [] demoM1).meta.in_maps = demoM1.in_maps ∧
    (initOutCoordsAndKernelMap demoBuilders false [1] [2] [3] [1] 0 [] demoM1).meta.out_maps = demoM1.out_maps ∧
    (false = false → (initOutCoordsAndKernelMap demoBuilders false [1] [2] [3] [1] 0 [] demoM1).err = none) :=
  cache_identity_by_derived_key demoBuilders false [1] [2] [3] [1] [1] [2] [3] [1]
    0 0 [] [] demoMeta demoM1 true (fun _ => Iff.rfl) rfl rfl rfl rfl (by decide)

/-- C3: hash_vec is the deterministic 64 bit fold starting at
14695981039346656037, each step multiplying by 1099511628211 modulo 2 to the
64 and xoring the component reinterpreted as unsigned; and the same routine,
parameterized only by element count, underlies ArrHash (resolution, stride,
kernel size and dilation tuples), CoordHash (coordinate tuples) and
InOutKeyHash (geometry key tuples). -/
theorem hash_vec_fnv1a_spec :
    fnvBasis = 14695981039346656037 ∧ fnvPrime = 1099511628211 ∧
    (∀ p : List Nat, hash_vec p = hashSpecFold 14695981039346656037 p) ∧
    (∀ a : List Int, ArrHash a = hash_vec (a.map toU64)) ∧
    (∀ c : List Int, CoordHash c = hash_vec (c.map toU64)) ∧
    (∀ k : List Nat, InOutKeyHash k = hash_vec k) :=
  ⟨rfl, rfl, fun p => foldl_hashStep_eq p fnvBasis,
   fun _ => rfl, fun _ => rfl, fun _ => rfl⟩

/-- C4: the backward check never mutates the scope and never runs a builder;
if the input resolution map, the output resolution map or the forward in/out
map is absent it reports the error value -1, and when it falls through the
forward map for the key is necessarily present. -/
theorem backward_never_creates_maps {D : Nat} (B : Builders D) (tr : Bool)
    (pd s ks dl : List Int) (m : Metadata D) :
    (backwardPropCheck B tr pd s ks dl m).meta = m ∧
    (backwardPropCheck B tr pd s ks dl m).ranBuilder = false ∧
    ((lookupKV m.coord2inds (ArrHash pd) = none ∨
      lookupKV m.coord2inds (ArrHash (B.computeOutPixelDist pd s tr)) = none ∨
      lookupKV m.in_maps (derivedKey pd s ks dl tr) = none) →
      (backwardPropCheck B tr pd s ks dl m).err = some (-1)) ∧
    ((backwardPropCheck B tr pd s ks dl m).err = none →
      lookupKV m.in_maps (derivedKey pd s ks dl tr) ≠ none) := by
  have hm : (backwardPropCheck B tr pd s ks dl m).meta = m ∧
      (backwardPropCheck B tr pd s ks dl m).ranBuilder = false := by
    rcases backward_result B tr pd s ks dl m with h | h <;> rw [h] <;> exact ⟨rfl, rfl⟩
  refine ⟨hm.1, hm.2, fun hd => (backward_err_iff B tr pd s ks dl m).mpr hd, fun he h3 => ?_⟩
  have := (backward_err_iff B tr pd s ks dl m).mpr (Or.inr (Or.inr h3))
  rw [he] at this
  exact Option.noConfusion this

/-- Witness for C4: on an empty scope the backward check reports -1 and the
scope is unchanged. -/
theorem backward_never_creates_maps_witness :
    (backwardPropCheck demoBuilders false [1] [2] [3] [1] (Metadata.empty 1)).meta =
      Metadata.empty 1 ∧
    (backwardPropCheck demoBuilders false [1] [2] [3] [1] (Metadata.empty 1)).err =
      some (-1) :=
  ⟨(backward_never_creates_maps demoBuilders false [1] [2] [3] [1] (Metadata.empty 1)).1,
   (backward_never_creates_maps demoBuilders false [1] [2] [3] [1] (Metadata.empty 1)).2.2.1
     (Or.inl (by decide))⟩

/-- C5: starting from a fresh scope, after any sequence of entry point calls
(including failing ones) a geometry key is present in in_maps exactly when it
is present in out_maps: builders populate both parallel caches for a key or
neither, and no failure path partially mutates them. -/
theorem in_out_maps_keys_paired {D : Nat} (ops : List (Op D)) :
    keysPaired (runOps (Metadata.empty D) ops) :=
  runOps_keysPaired ops (Metadata.empty D) (keysPaired_empty D)

/-- C6: the transposed path never creates a coordinate map (coord2inds is
returned unchanged in every case); when no coordinate map is registered at
the finer output resolution the transposed call bails out with -1 and inserts
nothing; the non transposed path, by contrast, creates the missing output
coordinate map itself from the input map, the pixel dists and the strides. -/
theorem transpose_never_creates_coord_map {D : Nat} (B : Builders D)
    (pd s ks dl : List Int) (rt : Int) (off : List (List Int)) (m : Metadata D) :
    (initOutCoordsAndKernelMap B true pd s ks dl rt off m).meta.coord2inds = m.coord2inds ∧
    (lookupKV m.coord2inds (ArrHash (B.computeOutPixelDist pd s true)) = none →
      initOutCoordsAndKernelMap B true pd s ks dl rt off m = ⟨some (-1), m, false⟩) ∧
    (∀ cm, lookupKV m.coord2inds (ArrHash pd) = some cm →
      lookupKV m.coord2inds (ArrHash (B.computeOutPixelDist pd s false)) = none →
      lookupKV (initOutCoordsAndKernelMap B false pd s ks dl rt off m).meta.coord2inds
        (ArrHash (B.computeOutPixelDist pd s false)) =
        some (B.createOutputCoordIndexMap cm pd s)) := by
  refine ⟨?_, ?_, ?_⟩
  · by_cases h1 : lookupKV m.coord2inds (ArrHash pd) = none
    · simp [initOutCoordsAndKernelMap, h1]
    · by_cases h2 : lookupKV m.coord2inds
          (ArrHash (B.computeOutPixelDist pd s true)) = none
      · simp [initOutCoordsAndKernelMap, h1, h2]
      · by_cases h3 : lookupKV m.in_maps (derivedKey pd s ks dl true) = none <;>
          simp [initOutCoordsAndKernelMap, h1, h2, h3]
  · intro h2
    by_cases h1 : lookupKV m.coord2inds (ArrHash pd) = none <;>
      simp [initOutCoordsAndKernelMap, h1, h2]
  · intro cm h1 h2
    have h1n : ¬ lookupKV m.coord2inds (ArrHash pd) = none := by simp [h1]
    by_cases h3 : lookupKV m.in_maps (derivedKey pd s ks dl false) = none <;>
      simp [initOutCoordsAndKernelMap, h1n, h1, h2, h3, lookupKV_insertKV]

/-- Witness for C6: on demoMeta the transposed call fails because no map is
registered at the doubled resolution, while the non transposed call creates
that map. -/
theorem transpose_never_creates_coord_map_witness :
    initOutCoordsAndKernelMap demoBuilders true [1] [2] [3] [1] 0 [] demoMeta =
      ⟨some (-1), demoMeta, false⟩ ∧
    lookupKV (initOutCoordsAndKernelMap demoBuilders false [1] [2] [3] [1] 0 []
        demoMeta).meta.coord2inds
      (ArrHash (demoBuilders.computeOutPixelDist [1] [2] false)) =
      some (demoBuilders.createOutputCoordIndexMap demoCoordMap [1] [2]) :=
  ⟨(transpose_never_creates_coord_map demoBuilders [1] [2] [3] [1] 0 [] demoMeta).2.1
     (by decide),
   (transpose_never_creates_coord_map demoBuilders [1] [2] [3] [1] 0 [] demoMeta).2.2
     demoCoordMap (by decide) (by decide)⟩

/-- C7 counterexample: three failures of three different kinds, a missing
input resolution in the forward macro, a missing forward in/out map in the
backward check (both coordinate maps being present there), and an ASSERT_EQ
size mismatch, all return the very same value -1, so the returned value does
not let the caller tell which kind occurred, contrary to the claim that each
kind is reported as a distinguishable failure code. -/
theorem error_codes_indistinguishable_cex :
    (initOutCoordsAndKernelMap demoBuilders false [1] [2] [3] [1] 0 []
      (Metadata.empty 1)).err = some (-1) ∧
    (backwardPropCheck demoBuilders false [1] [2] [3] [1] demoMeta2).err = some (-1) ∧
    ASSERT_EQ 3 4 = some (-1) ∧
    (initOutCoordsAndKernelMap demoBuilders false [1] [2] [3] [1] 0 []
      (Metadata.empty 1)).err =
      (backwardPropCheck demoBuilders false [1] [2] [3] [1] demoMeta2).err := by
  decide

/-- C7 as amended: every failing run of the forward macro, the global macro,
the backward check or ASSERT_EQ reports the single failure value -1 (the
kinds are distinguished only on the error stream, not by the returned value)
and leaves the cached state exactly as it was. -/
theorem errors_uniform_minus_one_state_preserved {D : Nat} (B : Builders D)
    (tr : Bool) (pd s ks dl : List Int) (rt : Int) (off : List (List Int))
    (m : Metadata D) :
    ((initOutCoordsAndKernelMap B tr pd s ks dl rt off m).err ≠ none →
      initOutCoordsAndKernelMap B tr pd s ks dl rt off m = ⟨some (-1), m, false⟩) ∧
    ((initGlobalOutCoordsAndKernelMap B pd m).err ≠ none →
      initGlobalOutCoordsAndKernelMap B pd m = ⟨some (-1), m, false⟩) ∧
    ((backwardPropCheck B tr pd s ks dl m).err ≠ none →
      backwardPropCheck B tr pd s ks dl m = ⟨some (-1), m, false⟩) ∧
    (∀ a b : Int, ASSERT_EQ a b ≠ none → ASSERT_EQ a b = some (-1)) := by
  refine ⟨fun h => initOut_err B tr pd s ks dl rt off m h,
    fun h => initGlobal_err B pd m h, fun h => ?_, fun a b h => ?_⟩
  · rcases backward_result B tr pd s ks dl m with hb | hb
    · exact hb
    · rw [hb] at h
      simp at h
  · by_cases hab : a = b <;> simp [ASSERT_EQ, hab] at h ⊢

/-- Witness for C7 as amended: a request at an unregistered resolution
returns -1 and leaves the scope unchanged. -/
theorem errors_uniform_minus_one_witness :
    initOutCoordsAndKernelMap demoBuilders false [5] [2] [3] [1] 0 [] demoMeta =
      ⟨some (-1), demoMeta, false⟩ :=
  (errors_uniform_minus_one_state_preserved demoBuilders false [5] [2] [3] [1]
    0 [] demoMeta).1 (by decide)

/-- C8: clearing a scope empties coord2inds, in_maps and out_maps; afterwards
the row count query for any resolution (registered before the clear or not)
reports the error -1 rather than a stale count, and any mapping request fails
with -1 without touching the cleared scope. -/
theorem clear_resets_all_maps {D : Nat} (m : Metadata D) :
    (Metadata.clear m).coord2inds = [] ∧ (Metadata.clear m).in_maps = [] ∧
    (Metadata.clear m).out_maps = [] ∧
    (∀ pd : List Int, t_get_num_coords pd (Metadata.clear m) = Except.error (-1)) ∧
    (∀ (B : Builders D) (tr : Bool) (pd s ks dl : List Int) (rt : Int)
        (off : List (List Int)),
      initOutCoordsAndKernelMap B tr pd s ks dl rt off (Metadata.clear m) =
        ⟨some (-1), Metadata.clear m, false⟩) := by
  refine ⟨rfl, rfl, rfl, fun pd => rfl, fun B tr pd s ks dl rt off => ?_⟩
  exact initOut_missing_pd B tr pd s ks dl rt off (Metadata.clear m) rfl

/-- C9 counterexample: for Itype int32_t (numeric_limits max 2147483647) and
D equal 3 the constructor sets every component of the reserved empty key to
-2147483647, the negation of the maximum, which is not the extreme
representable negative value -2147483648 of int32_t. -/
theorem sentinel_not_extreme_min_cex :
    (CoordIndexMap.init 3 int32Max).emptyKey = List.replicate 4 (-2147483647 : Int) ∧
    (CoordIndexMap.init 3 int32Max).emptyKey ≠ List.replicate 4 (-2147483648 : Int) := by
  decide

/-- C9 as amended: the constructor reserves the coordinate whose D+1
components all equal the negation of the maximum representable value of the
index type (one above the most negative value) as the empty key of the hash
map, and after any batch of insertions this sentinel is never a real key:
every stored coordinate differs from it. -/
theorem sentinel_neg_max_reserved (D : Nat) (itypeMax : Int)
    (cs : List (List Int)) :
    (CoordIndexMap.init D itypeMax).emptyKey = List.replicate (D + 1) (-itypeMax) ∧
    ((CoordIndexMap.init D itypeMax).insertAll cs).emptyKey =
      List.replicate (D + 1) (-itypeMax) ∧
    ∀ e ∈ ((CoordIndexMap.init D itypeMax).insertAll cs).entries,
      e.1 ≠ List.replicate (D + 1) (-itypeMax) := by
  obtain ⟨hek, hent⟩ := insertAll_sentinel cs (CoordIndexMap.init D itypeMax)
    (by simp [CoordIndexMap.init])
  exact ⟨rfl, hek, hent⟩

/-- Witness for C9 as amended at a concrete insertion batch. -/
theorem sentinel_neg_max_reserved_witness :
    ((CoordIndexMap.init 1 int32Max).insertAll [[0, 0]]).emptyKey =
      List.replicate 2 (-int32Max) ∧
    (([0, 0], 0) : List Int × Nat).1 ≠ List.replicate 2 (-int32Max) :=
  ⟨(sentinel_neg_max_reserved 1 int32Max [[0, 0]]).2.1,
   (sentinel_neg_max_reserved 1 int32Max [[0, 0]]).2.2 ([0, 0], 0) (by decide)⟩

/-- C10: the global reduction path keys its caches by all zero tuples: with
the input resolution registered and the key not yet cached it succeeds,
builds, stores its output coordinate map in coord2inds under the hash of the
all zero length D tuple (the entry a literal all zero resolution would use)
and its in/out maps under the key (hash pd, hash zeros, hash zeros,
hash zeros, non transposed); consequently a later non transposed call with
all zero stride, kernel size and dilation at the same resolution finds that
key cached, runs no builder, and leaves in_maps unchanged. -/
theorem global_reduction_zero_key (D : Nat) (B : Builders D) (pd : List Int)
    (m : Metadata D)
    (hpd : lookupKV m.coord2inds (ArrHash pd) ≠ none)
    (hkey : lookupKV m.in_maps (derivedKey pd (List.replicate D 0)
      (List.replicate D 0) (List.replicate D 0) false) = none) :
    (initGlobalOutCoordsAndKernelMap B pd m).err = none ∧
    (initGlobalOutCoordsAndKernelMap B pd m).ranBuilder = true ∧
    lookupKV (initGlobalOutCoordsAndKernelMap B pd m).meta.coord2inds
      (ArrHash (List.replicate D (0 : Int))) ≠ none ∧
    lookupKV (initGlobalOutCoordsAndKernelMap B pd m).meta.in_maps
      (derivedKey pd (List.replicate D 0) (List.replicate D 0)
        (List.replicate D 0) false) ≠ none ∧
    lookupKV (initGlobalOutCoordsAndKernelMap B pd m).meta.out_maps
      (derivedKey pd (List.replicate D 0) (List.replicate D 0)
        (List.replicate D 0) false) ≠ none ∧
    ∀ (rt : Int) (off : List (List Int)),
      (initOutCoordsAndKernelMap B false pd (List.replicate D 0)
        (List.replicate D 0) (List.replicate D 0) rt off
        (initGlobalOutCoordsAndKernelMap B pd m).meta).ranBuilder = false ∧
      (initOutCoordsAndKernelMap B false pd (List.replicate D 0)
        (List.replicate D 0) (List.replicate D 0) rt off
        (initGlobalOutCoordsAndKernelMap B pd m).meta).meta.in_maps =
        (initGlobalOutCoordsAndKernelMap B pd m).meta.in_maps := by
  have key_facts : (initGlobalOutCoordsAndKernelMap B pd m).err = none ∧
      (initGlobalOutCoordsAndKernelMap B pd m).ranBuilder = true ∧
      lookupKV (initGlobalOutCoordsAndKernelMap B pd m).meta.coord2inds
        (ArrHash (List.replicate D (0 : Int))) ≠ none ∧
      lookupKV (initGlobalOutCoordsAndKernelMap B pd m).meta.in_maps
        (derivedKey pd (List.replicate D 0) (List.replicate D 0)
          (List.replicate D 0) false) ≠ none ∧
      lookupKV (initGlobalOutCoordsAndKernelMap B pd m).meta.out_maps
        (derivedKey pd (List.replicate D 0) (List.replicate D 0)
          (List.replicate D 0) false) ≠ none := by
    by_cases h2 : lookupKV m.coord2inds (ArrHash (List.replicate D (0 : Int))) = none <;>
      simp [initGlobalOutCoordsAndKernelMap, hpd, h2, hkey, lookupKV_insertKV]
  obtain ⟨e1, e2, e3, e4, e5⟩ := key_facts
  refine ⟨e1, e2, e3, e4, e5, fun rt off => ?_⟩
  obtain ⟨r1, r2, -, -⟩ := initOut_key_present B false pd (List.replicate D 0)
    (List.replicate D 0) (List.replicate D 0) rt off
    (initGlobalOutCoordsAndKernelMap B pd m).meta e4
  exact ⟨r1, r2⟩

/-- Witness for C10 at a concrete scope. -/
theorem global_reduction_zero_key_witness :
    (initGlobalOutCoordsAndKernelMap demoBuilders [1] demoMeta).err = none ∧
    (initGlobalOutCoordsAndKernelMap demoBuilders [1] demoMeta).ranBuilder = true ∧
    (initOutCoordsAndKernelMap demoBuilders false [1] (List.replicate 1 0)
      (List.replicate 1 0) (List.replicate 1 0) 0 []
      (initGlobalOutCoordsAndKernelMap demoBuilders [1] demoMeta).meta).ranBuilder = false :=
  ⟨(global_reduction_zero_key 1 demoBuilders [1] demoMeta (by decide) (by decide)).1,
   (global_reduction_zero_key 1 demoBuilders [1] demoMeta (by decide) (by decide)).2.1,
   ((global_reduction_zero_key 1 demoBuilders [1] demoMeta (by decide)
     (by decide)).2.2.2.2.2 0 []).1⟩

end MinkowskiEngine
